import Mathlib

/-!
# The log viewer widget of k9s (`internal/view/logger.go`)

A shallow embedding of the `Logger` view: its key-action table, the keyboard
dispatcher, the five command handlers, the style listener and the lifecycle
methods.  Go methods with a pointer receiver become functions that take the
receiver's state and return the new state next to the Go result.

Everything the widget reaches through a pointer is carried inside the state:
the host application (`App`), the filter buffer (`FishBuff`), the rendering
surface (`TextView`) and the two process services used by Save and Copy
(`Sys`).  Requests sent to collaborators are appended, in program order, to
`App.log`, so "how many times" and "in which order" are statements about
that list.
-/

namespace K9s

/-! ## External types -/

/-- Terminal colour (`tcell.Color`), kept as a number. -/
abbrev Color := Nat

/-- The colour constant `tcell.ColorOrange`, by its RGB value. -/
def ColorOrange : Color := 0xFFA500

/-- The colour constant `tcell.ColorAqua`, by its RGB value. -/
def ColorAqua : Color := 0x00FFFF

/-- A Go `error` value, represented by its message. -/
structure Error where
  msg : String
deriving DecidableEq, Repr

/-- Modelled from the spec: the key identifier type (`tcell.Key`) is declared
in another package; the spec describes it as a tagged union of special-key codes
and printable-character codes. -/
inductive Key where
  | special (code : Nat)
  | rune (c : Char)
deriving DecidableEq, Repr

/-- The key `tcell.KeyEscape`. -/
def KeyEscape : Key := .special 27

/-- The key `tcell.KeyCtrlS`. -/
def KeyCtrlS : Key := .special 19

/-- The key `tcell.KeyDelete`. -/
def KeyDelete : Key := .special 271

/-- The key `ui.KeyC`. -/
def KeyC : Key := .rune 'c'

/-- The key `ui.KeySlash`. -/
def KeySlash : Key := .rune '/'

/-- Modelled from the spec: `tcell.EventKey` is declared in another package; the
spec has key events delivered as (key-identifier, modifiers) pairs. -/
structure EventKey where
  key : Key
  mods : Nat
deriving DecidableEq, Repr

/-- Modelled from the spec: `ui.AsKey` lives in package `ui`; the dispatcher
looks up "the event's key identifier". -/
def AsKey (evt : EventKey) : Key := evt.key

/-! ## Filter buffer (`model.FishBuff`) -/

/-- Modelled from the spec: `model.BufferKind`, the kind tag of a buffer. -/
inductive BufferKind where
  | CommandBuffer
  | FilterBuffer
deriving DecidableEq, Repr

/-- Modelled from the spec: the notifications a buffer sends to its listeners:
"buffer changed" carrying the new text, "active state changed" carrying the
boolean and the buffer kind, and "buffer completed". -/
inductive BuffEvent where
  | changed (text : String)
  | active (state : Bool) (kind : BufferKind)
  | completed (text : String)
deriving DecidableEq, Repr

/-- Modelled from the spec: `model.FishBuff` lives in package `model`.  The spec's
FilterBuffer is `{text, active, kind}` with a listener list and a
buffer-level "command mode" flag distinct from active/inactive.  `addr`
stands for the pointer identity under which the buffer is shared with the
host prompt; `hotKey` is the first argument of `NewFishBuff`. -/
structure FishBuff where
  addr : Nat
  hotKey : Char
  kind : BufferKind
  text : String
  active : Bool
  cmdMode : Bool
  listeners : List Nat
deriving DecidableEq, Repr

namespace FishBuff

/-- Modelled from the spec: `model.NewFishBuff`; a buffer starts Inactive
with no text and no listener. -/
def NewFishBuff (addr : Nat) (hotKey : Char) (kind : BufferKind) : FishBuff :=
  { addr := addr, hotKey := hotKey, kind := kind, text := "", active := false,
    cmdMode := false, listeners := [] }

/-- Modelled from the spec: `IsActive` reads the active flag. -/
def IsActive (b : FishBuff) : Bool := b.active

/-- Modelled from the spec: `InCmdMode` reads the buffer-level command-mode
flag. -/
def InCmdMode (b : FishBuff) : Bool := b.cmdMode

/-- Modelled from the spec: `SetActive` sets the active flag; activation and
deactivation trigger the "active state changed" callback carrying the
boolean and the buffer kind. -/
def SetActive (b : FishBuff) (state : Bool) : FishBuff × List BuffEvent :=
  ({ b with active := state }, [BuffEvent.active state b.kind])

/-- Modelled from the spec: "activate (sets active=true, resets text)". -/
def Activate (b : FishBuff) : FishBuff × List BuffEvent :=
  ({ b with text := "", active := true },
   [BuffEvent.changed "", BuffEvent.active true b.kind])

/-- Modelled from the spec: "append/edit (mutates text while active)"; every
mutation triggers the "buffer changed" callback carrying the new text. -/
def Add (b : FishBuff) (r : Char) : FishBuff × List BuffEvent :=
  if b.active then
    ({ b with text := b.text.push r }, [BuffEvent.changed (b.text.push r)])
  else (b, [])

/-- Modelled from the spec: "delete-last (removes one character or, if text
already empty, deactivates)". -/
def Delete (b : FishBuff) : FishBuff × List BuffEvent :=
  if b.text.data = [] then b.SetActive false
  else
    ({ b with text := String.mk b.text.data.dropLast },
     [BuffEvent.changed (String.mk b.text.data.dropLast)])

/-- Modelled from the spec: "reset (clears text, sets active=false)". -/
def Reset (b : FishBuff) : FishBuff × List BuffEvent :=
  ({ b with text := "", active := false },
   [BuffEvent.changed "", BuffEvent.active false b.kind])

/-- Modelled from the spec: `AddListener` registers a listener identity with
the buffer. -/
def AddListener (b : FishBuff) (w : Nat) : FishBuff :=
  { b with listeners := b.listeners ++ [w] }

end FishBuff

/-! ## Styles (`config.Styles`) -/

/-- Modelled from the spec: the border colours of the frame style. -/
structure Border where
  FgColor : Color
  FocusColor : Color
deriving DecidableEq, Repr

/-- Modelled from the spec: the frame part of the style sheet. -/
structure Frame where
  Border : Border
deriving DecidableEq, Repr

/-- Modelled from the spec: `config.Styles` lives in package `config`.  A
process-wide object describing colours, with a listener list that widgets
subscribe to and unsubscribe from by identity. -/
structure Styles where
  bg : Color
  fg : Color
  frame : Frame
  listeners : List Nat
deriving DecidableEq, Repr

namespace Styles

/-- Modelled from the spec: the background colour. -/
def BgColor (s : Styles) : Color := s.bg

/-- Modelled from the spec: the foreground colour. -/
def FgColor (s : Styles) : Color := s.fg

/-- Modelled from the spec: the frame style. -/
def Frame (s : Styles) : K9s.Frame := s.frame

/-- Modelled from the spec: subscription appends to the listener list, so
that "double-registration duplicates callback invocations". -/
def AddListener (s : Styles) (w : Nat) : Styles :=
  { s with listeners := s.listeners ++ [w] }

/-- Modelled from the spec: unsubscription is by identity and undoes one
registration (registrations and deregistrations are "exactly-once-paired"):
the first entry of that identity leaves the listener list; when the identity
is not listed, nothing changes. -/
def RemoveListener (s : Styles) (w : Nat) : Styles :=
  { s with listeners := s.listeners.erase w }

end Styles

/-! ## Host application -/

/-- A request the widget sends to a collaborator: the notification sink
(`Flash`), the view stack (`PrevCmd`), the prompt (`ResetPrompt`,
`SetModel`), the input-mode tracker (`BufferActive`), the file saver and the
clipboard. -/
inductive Effect where
  | flashInfo (msg : String)
  | flashErr (err : Error)
  | prevCmd (evt : EventKey)
  | resetPrompt (buff : Nat)
  | setModel (buff : Nat)
  | bufferActive (state : Bool) (kind : BufferKind)
  | saveYAML (cluster title text : String)
  | clipboardWrite (text : String)
deriving DecidableEq, Repr

namespace Effect

/-- Whether the request is a transient notification (info or error). -/
def isFlash : Effect → Bool
  | flashInfo _ => true
  | flashErr _ => true
  | _ => false

/-- Whether the request is a "pop to previous view" request. -/
def isPrevCmd : Effect → Bool
  | prevCmd _ => true
  | _ => false

/-- Whether the request hands a buffer to the host's prompt reset. -/
def isResetPrompt : Effect → Bool
  | resetPrompt _ => true
  | _ => false

end Effect

/-- Modelled from the spec: the host shell `App` lives in `app.go`.  It
holds the process-wide style object, reports whether it is in command mode,
knows which buffer its prompt is bound to, names the current cluster
(`Config.K9s.CurrentCluster`) and answers `PrevCmd`.  `log` records the
requests received, oldest first. -/
structure App where
  Styles : Styles
  cmdMode : Bool
  promptModel : Option Nat
  CurrentCluster : String
  prevCmdReply : EventKey → Option EventKey
  log : List Effect

namespace App

/-- Appends one request to the log. -/
def record (a : App) (e : Effect) : App := { a with log := a.log ++ [e] }

/-- Modelled from the spec: the host reports whether it is already in
command mode. -/
def InCmdMode (a : App) : Bool := a.cmdMode

/-- Modelled from the spec: `Flash().Info`, the info side of the
notification sink. -/
def FlashInfo (a : App) (msg : String) : App := a.record (Effect.flashInfo msg)

/-- Modelled from the spec: `Flash().Err`, the error side of the
notification sink. -/
def FlashErr (a : App) (err : Error) : App := a.record (Effect.flashErr err)

/-- Modelled from the spec: `PrevCmd` is the "pop to previous view" request;
the host decides what event it hands back. -/
def PrevCmd (a : App) (evt : EventKey) : Option EventKey × App :=
  (a.prevCmdReply evt, a.record (Effect.prevCmd evt))

/-- Modelled from the spec: `Prompt().SetModel` registers a buffer as the
host's active input-prompt model. -/
def SetModel (a : App) (m : FishBuff) : App :=
  { a.record (Effect.setModel m.addr) with promptModel := some m.addr }

/-- Modelled from the spec: `ResetPrompt`: "the host's prompt surface is
rebound to this buffer and the buffer's active flag is set". -/
def ResetPrompt (a : App) (m : FishBuff) : App × FishBuff × List BuffEvent :=
  ({ a.record (Effect.resetPrompt m.addr) with promptModel := some m.addr },
   m.Activate)

/-- Modelled from the spec: `BufferActive`, the host-level input-mode
tracker. -/
def BufferActive (a : App) (state : Bool) (k : BufferKind) : App :=
  a.record (Effect.bufferActive state k)

end App

/-- The two process services behind Save and Copy, as the answers they
give: `saveYAML cluster title text` yields the resolved path or an error,
`WriteAll text` (the clipboard) yields an error or nothing. -/
structure Sys where
  saveYAML : String → String → String → Except Error String
  WriteAll : String → Option Error

/-! ## Rendering surface (`tview.TextView`) -/

/-- The attributes of the embedded `tview.TextView` that the widget sets or
reads.  `inputCapture` holds the identity of the widget whose `keyboard` is
installed; `plainText` is `text` with all tags stripped. -/
structure TextView where
  border : Bool
  scrollable : Bool
  wrap : Bool
  regions : Bool
  dynamicColors : Bool
  highlightColor : Color
  titleColor : Color
  backgroundColor : Color
  textColor : Color
  borderFocusColor : Color
  borderPadding : Nat × Nat × Nat × Nat
  inputCapture : Option Nat
  text : String
  plainText : String
deriving DecidableEq, Repr

/-- The library call `GetText(stripAllTags)`. -/
def TextView.GetText (tv : TextView) (stripAllTags : Bool) : String :=
  if stripAllTags then tv.plainText else tv.text

/-! ## The widget -/

/-- The fields of `Logger` other than the action table, together with the
collaborators they point to.  `self` is the widget's pointer identity, the
value under which it registers as a listener. -/
structure Widget where
  self : Nat
  TextView : TextView
  app : App
  sys : Sys
  title : String
  subject : String
  cmdBuff : FishBuff

/-- The type `ui.ActionHandler`: a procedure from a key event to an event or
nil, acting on the widget it is bound to. -/
abbrev ActionHandler := EventKey → Widget → Option EventKey × Widget

/-- Modelled from the spec: `ui.KeyAction`, an entry of the registry
`{description, handler, visible}`; `Shared` tells the two constructors
apart. -/
structure KeyAction where
  Description : String
  Action : ActionHandler
  Visible : Bool
  Shared : Bool

/-- Modelled from the spec: `ui.NewKeyAction`. -/
def NewKeyAction (d : String) (a : ActionHandler) (display : Bool) : KeyAction :=
  { Description := d, Action := a, Visible := display, Shared := false }

/-- Modelled from the spec: `ui.NewSharedKeyAction`. -/
def NewSharedKeyAction (d : String) (a : ActionHandler) (display : Bool) : KeyAction :=
  { Description := d, Action := a, Visible := display, Shared := true }

/-- Modelled from the spec: `ui.KeyActions`, the mapping from key identifier
to entry, kept as an association list read from the front. -/
abbrev KeyActions := List (Key × KeyAction)

namespace KeyActions

/-- Map lookup `a[k]`, with the found flag as `Option`. -/
def get : KeyActions → Key → Option KeyAction
  | [], _ => none
  | (k, a) :: rest, q => if k = q then some a else get rest q

/-- Map store `a[k] = v`: overwrites the entry of `k` or adds one. -/
def put : KeyActions → Key → KeyAction → KeyActions
  | [], k, v => [(k, v)]
  | (k0, a) :: rest, k, v => if k0 = k then (k, v) :: rest else (k0, a) :: put rest k v

/-- Modelled from the spec: `Set(entries)` merges the entries into the
existing map, overwriting on equal keys. -/
def Set (a : KeyActions) (aa : KeyActions) : KeyActions :=
  aa.foldl (fun m kv => put m kv.1 kv.2) a

end KeyActions

/-- The struct `Logger`: the widget state plus its action table. -/
structure Logger extends Widget where
  actions : KeyActions

namespace Logger

/-! ### Buffer listener callbacks -/

/-- The method `BufferChanged`: a hook that does nothing. -/
def BufferChanged (l : Widget) (_s : String) : Widget := l

/-- The method `BufferCompleted`: a hook that does nothing. -/
def BufferCompleted (l : Widget) (_s : String) : Widget := l

/-- The method `BufferActive`: forwards the state change to the host. -/
def BufferActive (l : Widget) (state : Bool) (k : BufferKind) : Widget :=
  { l with app := l.app.BufferActive state k }

/-- The callback of the widget that a buffer notification selects. -/
def notify (l : Widget) : BuffEvent → Widget
  | BuffEvent.changed s => BufferChanged l s
  | BuffEvent.active state k => BufferActive l state k
  | BuffEvent.completed s => BufferCompleted l s

/-- Delivery of one buffer notification: the buffer walks its listener list
and the widget's callback runs once per entry that is the widget itself.
Entries of other listeners are outside this widget. -/
def deliver (l : Widget) (e : BuffEvent) : Widget :=
  l.cmdBuff.listeners.foldl (fun acc w => if w = l.self then notify acc e else acc) l

/-- Delivery of the notifications of one buffer operation, in order. -/
def fire (l : Widget) (es : List BuffEvent) : Widget :=
  es.foldl deliver l

/-- A buffer operation run through the widget's `cmdBuff` pointer: the buffer
is replaced by the operation's result and its notifications are delivered. -/
def onBuff (l : Widget) (op : FishBuff → FishBuff × List BuffEvent) : Widget :=
  fire { l with cmdBuff := (op l.cmdBuff).1 } (op l.cmdBuff).2

/-! ### Style listener -/

/-- The method `StylesChanged`: re-applies background, text and border-focus
colours, read from `l.app.Styles`; the argument is not consulted. -/
def StylesChanged (l : Widget) (_s : Styles) : Widget :=
  { l with TextView :=
      { l.TextView with
          backgroundColor := l.app.Styles.BgColor
          textColor := l.app.Styles.FgColor
          borderFocusColor := l.app.Styles.Frame.Border.FocusColor } }

/-- Modelled from the spec: a style broadcast invokes `StylesChanged` once
per entry of the listener list; this is the part of the broadcast that
reaches the widget, with the number of invocations made on it. -/
def broadcast (l : Widget) (s : Styles) : Widget × Nat :=
  l.app.Styles.listeners.foldl
    (fun acc w => if w = l.self then (StylesChanged acc.1 s, acc.2 + 1) else acc) (l, 0)

/-! ### Command handlers -/

/-- The handler `activateCmd` (Filter Mode). -/
def activateCmd (evt : EventKey) (l : Widget) : Option EventKey × Widget :=
  if l.app.InCmdMode then (some evt, l)
  else
    (none,
     fire { l with app := (l.app.ResetPrompt l.cmdBuff).1
                   cmdBuff := (l.app.ResetPrompt l.cmdBuff).2.1 }
       (l.app.ResetPrompt l.cmdBuff).2.2)

/-- The handler `eraseCmd` (Erase). -/
def eraseCmd (_evt : EventKey) (l : Widget) : Option EventKey × Widget :=
  if !l.cmdBuff.IsActive then (none, l)
  else (none, onBuff l FishBuff.Delete)

/-- The handler `resetCmd` (Back, bound to Escape). -/
def resetCmd (evt : EventKey) (l : Widget) : Option EventKey × Widget :=
  if !l.cmdBuff.InCmdMode then
    let l1 := onBuff l FishBuff.Reset
    ((l1.app.PrevCmd evt).1, { l1 with app := (l1.app.PrevCmd evt).2 })
  else
    let l1 := onBuff l (fun b => b.SetActive false)
    (none, onBuff l1 FishBuff.Reset)

/-- The handler `saveCmd` (Save). -/
def saveCmd (_evt : EventKey) (l : Widget) : Option EventKey × Widget :=
  let text := l.TextView.GetText true
  let app := l.app.record (Effect.saveYAML l.app.CurrentCluster l.title text)
  match l.sys.saveYAML l.app.CurrentCluster l.title text with
  | Except.error err => (none, { l with app := app.FlashErr err })
  | Except.ok path =>
      (none, { l with app := app.FlashInfo ("Log " ++ path ++ " saved successfully!") })

/-- The handler `cpCmd` (Copy). -/
def cpCmd (_evt : EventKey) (l : Widget) : Option EventKey × Widget :=
  let app1 := l.app.FlashInfo "Content copied to clipboard..."
  let text := l.TextView.GetText true
  let app2 := app1.record (Effect.clipboardWrite text)
  match l.sys.WriteAll text with
  | some err => (none, { l with app := app2.FlashErr err })
  | none => (none, { l with app := app2 })

/-! ### Methods of the full widget -/

/-- The method `bindKeys`. -/
def bindKeys (l : Logger) : Logger :=
  { l with
      actions :=
        KeyActions.Set l.actions
          [ (KeyEscape, NewKeyAction "Back" resetCmd false),
            (KeyCtrlS, NewKeyAction "Save" saveCmd false),
            (KeyC, NewKeyAction "Copy" cpCmd true),
            (KeySlash, NewSharedKeyAction "Filter Mode" activateCmd false),
            (KeyDelete, NewSharedKeyAction "Erase" eraseCmd false) ] }

/-- The call `a.Action(evt)` of a bound handler: the handler acts on the
widget it is bound to and hands back its result. -/
def invoke (h : ActionHandler) (evt : EventKey) (l : Logger) : Option EventKey × Logger :=
  ((h evt l.toWidget).1, { l with toWidget := (h evt l.toWidget).2 })

/-- The method `keyboard`, the keyboard dispatcher. -/
def keyboard (l : Logger) (evt : EventKey) : Option EventKey × Logger :=
  match KeyActions.get l.actions (AsKey evt) with
  | some a => invoke a.Action evt l
  | none => (some evt, l)

/-- The constructor `NewLogger`: `self` is the fresh pointer, `tv` the value
of `tview.NewTextView()`, `addr` the pointer of the new buffer. -/
def NewLogger (app : App) (sys : Sys) (self : Nat) (tv : TextView) (addr : Nat) : Logger :=
  { self := self, TextView := tv, app := app, sys := sys, title := "", subject := "",
    cmdBuff := FishBuff.NewFishBuff addr '/' BufferKind.FilterBuffer, actions := [] }

/-- The method `Init`; the result it returns is always the nil error. -/
def Init (l : Logger) : Logger × Option Error :=
  let tv := l.TextView
  let tv := if l.title ≠ "" then { tv with border := true } else tv
  let tv := { tv with scrollable := true, wrap := true, regions := true }
  let tv := { tv with dynamicColors := true }
  let tv := { tv with highlightColor := ColorOrange }
  let tv := { tv with titleColor := ColorAqua }
  let tv := { tv with inputCapture := some l.self }
  let tv := { tv with borderPadding := (0, 0, 1, 1) }
  let w : Widget := { l.toWidget with TextView := tv }
  let w := { w with app := { w.app with Styles := w.app.Styles.AddListener w.self } }
  let w := StylesChanged w w.app.Styles
  let w := { w with app := w.app.SetModel w.cmdBuff }
  let w := { w with cmdBuff := w.cmdBuff.AddListener w.self }
  let l := bindKeys { l with toWidget := w }
  let l := { l with TextView := { l.TextView with inputCapture := some l.self } }
  (l, none)

/-- The method `SetSubject`. -/
def SetSubject (l : Widget) (s : String) : Widget := { l with subject := s }

/-- The method `Actions`. -/
def Actions (l : Logger) : KeyActions := l.actions

/-- The method `Name`. -/
def Name (l : Widget) : String := l.title

/-- The method `Start`. -/
def Start (l : Widget) : Widget := l

/-- The method `Stop`. -/
def Stop (l : Widget) : Widget :=
  { l with app := { l.app with Styles := l.app.Styles.RemoveListener l.self } }

/-- Modelled from the spec: typing one character at the host prompt, which
appends it to the shared buffer (the "append" edit). -/
def typeRune (l : Widget) (r : Char) : Widget := onBuff l (fun b => b.Add r)

/-- A method applied to the widget part of a `Logger`. -/
def lift (f : Widget → Widget) (l : Logger) : Logger := { l with toWidget := f l.toWidget }

end Logger

/-- The lifecycle calls the host makes on the widget. -/
inductive LifecycleCall where
  | Init
  | Start
  | Stop
  | SetSubject (s : String)
deriving DecidableEq, Repr

/-- One lifecycle call applied to the widget. -/
def Logger.call (l : Logger) : LifecycleCall → Logger
  | LifecycleCall.Init => (Logger.Init l).1
  | LifecycleCall.Start => Logger.lift Logger.Start l
  | LifecycleCall.Stop => Logger.lift Logger.Stop l
  | LifecycleCall.SetSubject s => Logger.lift (fun w => Logger.SetSubject w s) l

/-- A sequence of lifecycle calls applied in order. -/
def Logger.run (l : Logger) (cs : List LifecycleCall) : Logger :=
  cs.foldl Logger.call l

/-- The number of style registrations of the widget that are outstanding
after a sequence of lifecycle calls, when `n` were outstanding before: each
`Init` adds one, each `Stop` takes one away if there is any. -/
def outstanding (n : Nat) : List LifecycleCall → Nat
  | [] => n
  | LifecycleCall.Init :: cs => outstanding (n + 1) cs
  | LifecycleCall.Stop :: cs => outstanding (n - 1) cs
  | LifecycleCall.Start :: cs => outstanding n cs
  | LifecycleCall.SetSubject _ :: cs => outstanding n cs

/-! ## Sample values -/

/-- A style sheet with four distinct colours and no listener. -/
def sampleStyles : Styles :=
  { bg := 1, fg := 2, frame := { Border := { FgColor := 3, FocusColor := 4 } }, listeners := [] }

/-- A host that is in command mode or not, as asked, and swallows the event
on `PrevCmd`. -/
def sampleApp (inCmd : Bool) : App :=
  { Styles := sampleStyles, cmdMode := inCmd, promptModel := none,
    CurrentCluster := "minikube", prevCmdReply := fun _ => none, log := [] }

/-- Services that fail or succeed, as asked. -/
def sampleSys (fail : Bool) : Sys :=
  { saveYAML := fun cluster title _ =>
      if fail then Except.error { msg := "disk full" }
      else Except.ok ("/tmp/" ++ cluster ++ "/" ++ title ++ ".log")
    WriteAll := fun _ => if fail then some { msg := "no clipboard" } else none }

/-- A text view showing one tagged line. -/
def sampleTextView : TextView :=
  { border := false, scrollable := false, wrap := false, regions := false,
    dynamicColors := false, highlightColor := 0, titleColor := 0, backgroundColor := 0,
    textColor := 0, borderFocusColor := 0, borderPadding := (0, 0, 0, 0),
    inputCapture := none, text := "[red]boom[-]", plainText := "boom" }

/-- A new widget with identity 7 whose buffer has address 70. -/
def sampleLogger (inCmd fail : Bool) : Logger :=
  Logger.NewLogger (sampleApp inCmd) (sampleSys fail) 7 sampleTextView 70

/-- A key event for the printable character `x`, bound to nothing. -/
def sampleEvt : EventKey := { key := Key.rune 'x', mods := 0 }

/-- An initialised widget on a host that is not in command mode. -/
def sampleReady : Logger := (Logger.Init (sampleLogger false false)).1

/-- The widget `sampleReady` after the filter was activated and `a` typed:
the buffer is active and holds "a". -/
def sampleTyping : Widget :=
  Logger.typeRune (Logger.activateCmd sampleEvt sampleReady.toWidget).2 'a'

/-- The widget `sampleTyping` with the buffer's command-mode flag raised. -/
def samplePinned : Widget :=
  { sampleTyping with cmdBuff := { sampleTyping.cmdBuff with cmdMode := true } }

/-! ## Delivery of buffer notifications -/

/-- The state `l2` is `l1` with only forwarded "active state changed" requests
added to the host log. -/
def ForwardOnly (l1 l2 : Widget) : Prop :=
  ∃ d : List Effect, (∀ e ∈ d, ∃ st k, e = Effect.bufferActive st k) ∧
    l2 = { l1 with app := { l1.app with log := l1.app.log ++ d } }

theorem ForwardOnly.refl (l : Widget) : ForwardOnly l l :=
  ⟨[], by simp, by simp⟩

theorem ForwardOnly.trans {l1 l2 l3 : Widget} (h12 : ForwardOnly l1 l2)
    (h23 : ForwardOnly l2 l3) : ForwardOnly l1 l3 := by
  obtain ⟨d1, hd1, rfl⟩ := h12
  obtain ⟨d2, hd2, rfl⟩ := h23
  refine ⟨d1 ++ d2, ?_, by simp [List.append_assoc]⟩
  intro e he
  rcases List.mem_append.mp he with h | h
  · exact hd1 e h
  · exact hd2 e h

theorem ForwardOnly.notify (l : Widget) (e : BuffEvent) :
    ForwardOnly l (Logger.notify l e) := by
  cases e with
  | changed s => exact ForwardOnly.refl l
  | completed s => exact ForwardOnly.refl l
  | active st k =>
    refine ⟨[Effect.bufferActive st k], ?_, rfl⟩
    intro e he
    exact ⟨st, k, by simpa using he⟩

theorem ForwardOnly.foldl_notify (self : Nat) (e : BuffEvent) (ws : List Nat) (acc : Widget) :
    ForwardOnly acc
      (ws.foldl (fun a w => if w = self then Logger.notify a e else a) acc) := by
  induction ws generalizing acc with
  | nil => exact ForwardOnly.refl acc
  | cons w ws ih =>
    simp only [List.foldl_cons]
    by_cases hw : w = self
    · simp only [hw, if_true]
      exact ForwardOnly.trans (ForwardOnly.notify acc e) (ih _)
    · simp only [hw, if_false]
      exact ih acc

theorem ForwardOnly.deliver (l : Widget) (e : BuffEvent) :
    ForwardOnly l (Logger.deliver l e) :=
  ForwardOnly.foldl_notify l.self e l.cmdBuff.listeners l

theorem ForwardOnly.fire (l : Widget) (es : List BuffEvent) :
    ForwardOnly l (Logger.fire l es) := by
  induction es generalizing l with
  | nil => exact ForwardOnly.refl l
  | cons e es ih =>
    exact ForwardOnly.trans (ForwardOnly.deliver l e) (ih (Logger.deliver l e))

/-- A buffer operation run through the widget leaves the buffer as the
operation's result. -/
theorem onBuff_cmdBuff (l : Widget) (op : FishBuff → FishBuff × List BuffEvent) :
    (Logger.onBuff l op).cmdBuff = (op l.cmdBuff).1 := by
  obtain ⟨d, _, h⟩ := ForwardOnly.fire { l with cmdBuff := (op l.cmdBuff).1 } (op l.cmdBuff).2
  have hon : Logger.onBuff l op = _ := h
  rw [hon]

/-- When the host is not in command mode, `activateCmd` leaves the buffer as
the result of its activation. -/
theorem activateCmd_cmdBuff (l : Widget) (evt : EventKey) (h : l.app.InCmdMode = false) :
    (Logger.activateCmd evt l).2.cmdBuff = l.cmdBuff.Activate.1 := by
  obtain ⟨d, _, hfire⟩ := ForwardOnly.fire
    { l with app := (l.app.ResetPrompt l.cmdBuff).1
             cmdBuff := (l.app.ResetPrompt l.cmdBuff).2.1 }
    (l.app.ResetPrompt l.cmdBuff).2.2
  unfold Logger.activateCmd
  rw [if_neg (by simp [h]), hfire]
  rfl

/-- Forwarded requests are neither notifications, nor pop requests, nor
prompt resets. -/
theorem filter_forwarded (d : List Effect)
    (hd : ∀ e ∈ d, ∃ st k, e = Effect.bufferActive st k) :
    d.filter Effect.isFlash = [] ∧ d.filter Effect.isPrevCmd = [] ∧
      d.filter Effect.isResetPrompt = [] := by
  refine ⟨?_, ?_, ?_⟩ <;>
  · rw [List.filter_eq_nil_iff]
    intro e he
    obtain ⟨st, k, rfl⟩ := hd e he
    simp [Effect.isFlash, Effect.isPrevCmd, Effect.isResetPrompt]

/-! ## Lifecycle helpers -/

/-- The method `Init` keeps the widget's identity. -/
theorem Init_self (l : Logger) : (Logger.Init l).1.self = l.self := rfl

/-- Every lifecycle call keeps the widget's identity. -/
theorem call_self (l : Logger) (c : LifecycleCall) : (Logger.call l c).self = l.self := by
  cases c <;> rfl

/-- A sequence of lifecycle calls keeps the widget's identity. -/
theorem run_self (l : Logger) (cs : List LifecycleCall) : (Logger.run l cs).self = l.self := by
  induction cs generalizing l with
  | nil => rfl
  | cons c cs ih =>
    have h : Logger.run l (c :: cs) = Logger.run (Logger.call l c) cs := rfl
    rw [h, ih, call_self]

/-- A sequence that ends with `Stop` is the rest of the sequence followed by
`Stop`. -/
theorem run_snoc (l : Logger) (cs : List LifecycleCall) (c : LifecycleCall) :
    Logger.run l (cs ++ [c]) = Logger.call (Logger.run l cs) c := by
  unfold Logger.run
  rw [List.foldl_append]
  rfl

/-- Unsubscribing an identity that is not listed changes nothing. -/
theorem RemoveListener_absent (s : Styles) (w : Nat) (h : w ∉ s.listeners) :
    s.RemoveListener w = s := by
  simp [Styles.RemoveListener, List.erase_of_not_mem h]

/-- One lifecycle call moves the number of entries of the widget in the style
listener list as `outstanding` says. -/
theorem call_count (l : Logger) (c : LifecycleCall) :
    (Logger.call l c).app.Styles.listeners.count l.self =
      outstanding (l.app.Styles.listeners.count l.self) [c] := by
  cases c with
  | Init =>
    have h : (Logger.call l LifecycleCall.Init).app.Styles.listeners =
        l.app.Styles.listeners ++ [l.self] := rfl
    rw [h]
    simp [outstanding]
  | Start => rfl
  | Stop =>
    have h : (Logger.call l LifecycleCall.Stop).app.Styles.listeners =
        l.app.Styles.listeners.erase l.self := rfl
    rw [h]
    simp [outstanding]
  | SetSubject t => rfl

/-- Counting over a sequence is counting over its first call, then over the
rest. -/
theorem outstanding_cons (n : Nat) (c : LifecycleCall) (cs : List LifecycleCall) :
    outstanding n (c :: cs) = outstanding (outstanding n [c]) cs := by
  cases c <;> rfl

/-- Counting over a sequence followed by one more call. -/
theorem outstanding_snoc (n : Nat) (cs : List LifecycleCall) (c : LifecycleCall) :
    outstanding n (cs ++ [c]) = outstanding (outstanding n cs) [c] := by
  induction cs generalizing n with
  | nil => rfl
  | cons c0 cs ih =>
    rw [List.cons_append, outstanding_cons, ih, ← outstanding_cons]

/-- After a sequence of lifecycle calls the style listener list holds as many
entries of the widget as registrations are outstanding. -/
theorem run_count (l : Logger) (cs : List LifecycleCall) :
    (Logger.run l cs).app.Styles.listeners.count l.self =
      outstanding (l.app.Styles.listeners.count l.self) cs := by
  induction cs generalizing l with
  | nil => rfl
  | cons c cs ih =>
    have h : Logger.run l (c :: cs) = Logger.run (Logger.call l c) cs := rfl
    have hs := call_self l c
    have hi := ih (Logger.call l c)
    rw [hs] at hi
    rw [h, hi, call_count, ← outstanding_cons]

/-- A broadcast over a listener list without the widget makes no invocation
on it. -/
theorem broadcast_foldl_absent (self : Nat) (s : Styles) (ws : List Nat) (h : self ∉ ws)
    (acc : Widget × Nat) :
    ws.foldl (fun a w => if w = self then (Logger.StylesChanged a.1 s, a.2 + 1) else a) acc
      = acc := by
  induction ws generalizing acc with
  | nil => rfl
  | cons w ws ih =>
    have hw : w ≠ self := fun e => h (by simp [e])
    have hws : self ∉ ws := fun e => h (by simp [e])
    simp only [List.foldl_cons, hw, if_false]
    exact ih hws acc

/-! ## Keyboard dispatcher -/

/-- C1: for every widget state and every key event whose key identifier has
no entry in the action registry, `keyboard` hands back the original event and
the state it was given: filter buffer, registry and host log (hence the
notifications) are what they were. -/
theorem keyboard_unbound (l : Logger) (evt : EventKey)
    (h : KeyActions.get l.actions (AsKey evt) = none) :
    Logger.keyboard l evt = (some evt, l) ∧
      (Logger.keyboard l evt).2.cmdBuff = l.cmdBuff ∧
      (Logger.keyboard l evt).2.actions = l.actions ∧
      (Logger.keyboard l evt).2.app.log = l.app.log := by
  have hk : Logger.keyboard l evt = (some evt, l) := by
    unfold Logger.keyboard
    rw [h]
  rw [hk]
  exact ⟨rfl, rfl, rfl, rfl⟩

/-- Witness of C1: the key `x` on an initialised widget, whose registry binds
Escape, Ctrl-S, `c`, `/` and Delete. -/
theorem keyboard_unbound_witness :
    KeyActions.get (Logger.Init (sampleLogger false false)).1.actions (AsKey sampleEvt) = none ∧
      Logger.keyboard (Logger.Init (sampleLogger false false)).1 sampleEvt =
        (some sampleEvt, (Logger.Init (sampleLogger false false)).1) :=
  ⟨rfl, (keyboard_unbound (Logger.Init (sampleLogger false false)).1 sampleEvt rfl).1⟩

/-! ## Filter buffer handlers -/

/-- C2: if the host reports it is already in command mode, `activateCmd`
returns the same event and the state it was given, so the buffer is not
activated (an inactive buffer stays inactive) and the prompt is not rebound;
if the host is not in command mode, the event is consumed, the buffer is
handed to the host's prompt reset exactly once, the prompt is bound to it and
its active flag is true. -/
theorem activateCmd_guard (l : Widget) (evt : EventKey) :
    (l.app.InCmdMode = true →
      Logger.activateCmd evt l = (some evt, l) ∧
        (l.cmdBuff.active = false → (Logger.activateCmd evt l).2.cmdBuff.active = false) ∧
        (Logger.activateCmd evt l).2.app.promptModel = l.app.promptModel ∧
        (Logger.activateCmd evt l).2.app.log = l.app.log) ∧
    (l.app.InCmdMode = false →
      (Logger.activateCmd evt l).1 = none ∧
        (Logger.activateCmd evt l).2.cmdBuff.active = true ∧
        (Logger.activateCmd evt l).2.app.promptModel = some l.cmdBuff.addr ∧
        ∃ d, (Logger.activateCmd evt l).2.app.log = l.app.log ++ d ∧
          d.filter Effect.isResetPrompt = [Effect.resetPrompt l.cmdBuff.addr]) := by
  constructor
  · intro h
    have hk : Logger.activateCmd evt l = (some evt, l) := by
      unfold Logger.activateCmd
      rw [if_pos h]
    rw [hk]
    exact ⟨rfl, fun h0 => h0, rfl, rfl⟩
  · intro h
    have hk : Logger.activateCmd evt l =
        (none, Logger.fire { l with app := (l.app.ResetPrompt l.cmdBuff).1
                                    cmdBuff := (l.app.ResetPrompt l.cmdBuff).2.1 }
                 (l.app.ResetPrompt l.cmdBuff).2.2) := by
      unfold Logger.activateCmd
      rw [if_neg (by simp [h])]
    obtain ⟨d, hd, hfire⟩ := ForwardOnly.fire
      { l with app := (l.app.ResetPrompt l.cmdBuff).1
               cmdBuff := (l.app.ResetPrompt l.cmdBuff).2.1 }
      (l.app.ResetPrompt l.cmdBuff).2.2
    rw [hk, hfire]
    refine ⟨rfl, rfl, rfl, [Effect.resetPrompt l.cmdBuff.addr] ++ d, ?_, ?_⟩
    · simp [App.ResetPrompt, App.record, List.append_assoc]
    · rw [List.filter_append, (filter_forwarded d hd).2.2]
      rfl

/-- Witness of C2: a new widget on a host in command mode, and one on a host
that is not. -/
theorem activateCmd_guard_witness :
    Logger.activateCmd sampleEvt (sampleLogger true false).toWidget =
        (some sampleEvt, (sampleLogger true false).toWidget) ∧
      (Logger.activateCmd sampleEvt (sampleLogger false false).toWidget).1 = none ∧
      (Logger.activateCmd sampleEvt (sampleLogger false false).toWidget).2.cmdBuff.active = true :=
  ⟨((activateCmd_guard (sampleLogger true false).toWidget sampleEvt).1 rfl).1,
   ((activateCmd_guard (sampleLogger false false).toWidget sampleEvt).2 rfl).1,
   ((activateCmd_guard (sampleLogger false false).toWidget sampleEvt).2 rfl).2.1⟩

/-- C3: in every widget state whose filter buffer is not in command mode,
`resetCmd` leaves the buffer inactive with empty text and issues the host's
"pop to previous view" request exactly once, for the event it was given. -/
theorem resetCmd_not_in_cmd_mode (l : Widget) (evt : EventKey)
    (h : l.cmdBuff.InCmdMode = false) :
    (Logger.resetCmd evt l).2.cmdBuff.active = false ∧
      (Logger.resetCmd evt l).2.cmdBuff.text = "" ∧
      ∃ d, (Logger.resetCmd evt l).2.app.log = l.app.log ++ d ∧
        d.filter Effect.isPrevCmd = [Effect.prevCmd evt] := by
  have hk : Logger.resetCmd evt l =
      (((Logger.onBuff l FishBuff.Reset).app.PrevCmd evt).1,
       { Logger.onBuff l FishBuff.Reset with
           app := ((Logger.onBuff l FishBuff.Reset).app.PrevCmd evt).2 }) := by
    unfold Logger.resetCmd
    rw [if_pos (by simp [h])]
  obtain ⟨d, hd, hfire⟩ := ForwardOnly.fire
    { l with cmdBuff := (FishBuff.Reset l.cmdBuff).1 } (FishBuff.Reset l.cmdBuff).2
  have hon : Logger.onBuff l FishBuff.Reset = _ := hfire
  rw [hk, hon]
  refine ⟨rfl, rfl, d ++ [Effect.prevCmd evt], ?_, ?_⟩
  · simp [App.PrevCmd, App.record, List.append_assoc]
  · rw [List.filter_append, (filter_forwarded d hd).2.1]
    rfl

/-- Witness of C3: Escape on an initialised widget whose buffer is active,
holds "a" and is not in command mode. -/
theorem resetCmd_not_in_cmd_mode_witness :
    sampleTyping.cmdBuff.text = "a" ∧ sampleTyping.cmdBuff.active = true ∧
      (Logger.resetCmd sampleEvt sampleTyping).2.cmdBuff.active = false ∧
      (Logger.resetCmd sampleEvt sampleTyping).2.cmdBuff.text = "" :=
  ⟨rfl, rfl, (resetCmd_not_in_cmd_mode sampleTyping sampleEvt rfl).1,
   (resetCmd_not_in_cmd_mode sampleTyping sampleEvt rfl).2.1⟩

/-- C4: in every widget state whose filter buffer is in command mode,
`resetCmd` leaves the buffer inactive with empty text, issues no "pop to
previous view" request and consumes the event. -/
theorem resetCmd_in_cmd_mode (l : Widget) (evt : EventKey)
    (h : l.cmdBuff.InCmdMode = true) :
    (Logger.resetCmd evt l).1 = none ∧
      (Logger.resetCmd evt l).2.cmdBuff.active = false ∧
      (Logger.resetCmd evt l).2.cmdBuff.text = "" ∧
      ∃ d, (Logger.resetCmd evt l).2.app.log = l.app.log ++ d ∧
        d.filter Effect.isPrevCmd = [] := by
  have hk : Logger.resetCmd evt l =
      (none, Logger.onBuff (Logger.onBuff l (fun b => b.SetActive false)) FishBuff.Reset) := by
    unfold Logger.resetCmd
    rw [if_neg (by simp [h])]
  obtain ⟨d1, hd1, hfire1⟩ := ForwardOnly.fire
    { l with cmdBuff := (l.cmdBuff.SetActive false).1 } (l.cmdBuff.SetActive false).2
  have hon1 : Logger.onBuff l (fun b => b.SetActive false) = _ := hfire1
  rw [hk, hon1]
  obtain ⟨d2, hd2, hfire2⟩ := ForwardOnly.fire
    { ({ ({ l with cmdBuff := (l.cmdBuff.SetActive false).1 } : Widget) with
          app := { l.app with log := l.app.log ++ d1 } } : Widget) with
        cmdBuff := (FishBuff.Reset (l.cmdBuff.SetActive false).1).1 }
    (FishBuff.Reset (l.cmdBuff.SetActive false).1).2
  have hon2 : Logger.onBuff
      ({ ({ l with cmdBuff := (l.cmdBuff.SetActive false).1 } : Widget) with
          app := { l.app with log := l.app.log ++ d1 } } : Widget) FishBuff.Reset = _ := hfire2
  rw [hon2]
  refine ⟨rfl, rfl, rfl, d1 ++ d2, ?_, ?_⟩
  · simp [List.append_assoc]
  · rw [List.filter_append, (filter_forwarded d1 hd1).2.1, (filter_forwarded d2 hd2).2.1]
    rfl

/-- Witness of C4: Escape on a widget whose buffer is active, holds "a" and
is in command mode. -/
theorem resetCmd_in_cmd_mode_witness :
    samplePinned.cmdBuff.text = "a" ∧ samplePinned.cmdBuff.active = true ∧
      (Logger.resetCmd sampleEvt samplePinned).1 = none ∧
      (Logger.resetCmd sampleEvt samplePinned).2.cmdBuff.active = false ∧
      (Logger.resetCmd sampleEvt samplePinned).2.cmdBuff.text = "" :=
  ⟨rfl, rfl, (resetCmd_in_cmd_mode samplePinned sampleEvt rfl).1,
   (resetCmd_in_cmd_mode samplePinned sampleEvt rfl).2.1,
   (resetCmd_in_cmd_mode samplePinned sampleEvt rfl).2.2.1⟩

/-- C5: `eraseCmd` consumes the event in every state; on an inactive buffer
it leaves the state as it was (text and active flag included); on an active
buffer the buffer becomes the result of exactly one delete-last operation;
and from an inactive empty buffer, on a host that is not in command mode, the
sequence Activate, append `a`, append `b`, Erase leaves the text "a". -/
theorem eraseCmd_only_while_active (l : Widget) (evt : EventKey) :
    (Logger.eraseCmd evt l).1 = none ∧
    (l.cmdBuff.IsActive = false →
      (Logger.eraseCmd evt l).2 = l ∧
        (Logger.eraseCmd evt l).2.cmdBuff.text = l.cmdBuff.text ∧
        (Logger.eraseCmd evt l).2.cmdBuff.active = l.cmdBuff.active) ∧
    (l.cmdBuff.IsActive = true →
      (Logger.eraseCmd evt l).2.cmdBuff = l.cmdBuff.Delete.1) ∧
    (l.app.InCmdMode = false → l.cmdBuff.active = false → l.cmdBuff.text = "" →
      (Logger.eraseCmd evt
        (Logger.typeRune (Logger.typeRune (Logger.activateCmd evt l).2 'a') 'b')).2.cmdBuff.text
        = "a") := by
  refine ⟨?_, ?_, ?_, ?_⟩
  · unfold Logger.eraseCmd
    split <;> rfl
  · intro h
    have hk : Logger.eraseCmd evt l = (none, l) := by
      unfold Logger.eraseCmd
      rw [if_pos (by simp [h])]
    rw [hk]
    exact ⟨rfl, rfl, rfl⟩
  · intro h
    have hk : Logger.eraseCmd evt l = (none, Logger.onBuff l FishBuff.Delete) := by
      unfold Logger.eraseCmd
      rw [if_neg (by simp [h])]
    rw [hk]
    exact onBuff_cmdBuff l FishBuff.Delete
  · intro hcmd _ _
    have h1 := activateCmd_cmdBuff l evt hcmd
    have h2 : (Logger.typeRune (Logger.activateCmd evt l).2 'a').cmdBuff =
        { l.cmdBuff with text := "a", active := true } := by
      unfold Logger.typeRune
      rw [onBuff_cmdBuff, h1]
      rfl
    have h3 : (Logger.typeRune (Logger.typeRune (Logger.activateCmd evt l).2 'a') 'b').cmdBuff =
        { l.cmdBuff with text := "ab", active := true } := by
      unfold Logger.typeRune
      rw [onBuff_cmdBuff]
      unfold Logger.typeRune at h2
      rw [h2]
      rfl
    have hk : (Logger.eraseCmd evt
        (Logger.typeRune (Logger.typeRune (Logger.activateCmd evt l).2 'a') 'b')).2.cmdBuff =
        (FishBuff.Delete
          (Logger.typeRune (Logger.typeRune (Logger.activateCmd evt l).2 'a') 'b').cmdBuff).1 := by
      have hact : (Logger.typeRune (Logger.typeRune (Logger.activateCmd evt l).2 'a')
          'b').cmdBuff.IsActive = true := by
        rw [h3]
        rfl
      unfold Logger.eraseCmd
      rw [if_neg (by simp [hact])]
      exact onBuff_cmdBuff _ FishBuff.Delete
    rw [hk, h3]
    rfl

/-- Witness of C5: a new widget, whose buffer is inactive and empty, on a
host that is not in command mode: Erase changes nothing there, and after
Activate, `a`, `b` it leaves "a". -/
theorem eraseCmd_only_while_active_witness :
    (Logger.eraseCmd sampleEvt (sampleLogger false false).toWidget).2.cmdBuff.text = "" ∧
      (Logger.eraseCmd sampleEvt sampleTyping).2.cmdBuff = sampleTyping.cmdBuff.Delete.1 ∧
      (Logger.eraseCmd sampleEvt
        (Logger.typeRune (Logger.typeRune
          (Logger.activateCmd sampleEvt (sampleLogger false false).toWidget).2 'a')
            'b')).2.cmdBuff.text = "a" :=
  ⟨((eraseCmd_only_while_active (sampleLogger false false).toWidget sampleEvt).2.1 rfl).2.1,
   (eraseCmd_only_while_active sampleTyping sampleEvt).2.2.1 rfl,
   (eraseCmd_only_while_active (sampleLogger false false).toWidget sampleEvt).2.2.2 rfl rfl rfl⟩


/-! ## Style listener and lifecycle -/

/-- C6, as stated, fails: on a new widget, which is in no listener list, the
sequence `Init`, `Init`, `Stop` ends with `Stop` and leaves one entry of the
widget in the style listener list, so a broadcast delivered afterwards makes
one `StylesChanged` invocation on the stopped widget. -/
theorem stop_ends_style_callbacks_counterexample :
    (sampleLogger false false).self ∉ (sampleLogger false false).app.Styles.listeners ∧
      (sampleLogger false false).self ∈
        (Logger.run (sampleLogger false false)
          ([LifecycleCall.Init, LifecycleCall.Init] ++ [LifecycleCall.Stop])).app.Styles.listeners ∧
      (Logger.broadcast
        (Logger.run (sampleLogger false false)
          ([LifecycleCall.Init, LifecycleCall.Init] ++ [LifecycleCall.Stop])).toWidget
        sampleStyles).2 = 1 := by
  refine ⟨by decide, by decide, by decide⟩

/-- C6, amended: for every sequence of lifecycle calls, ending with `Stop`, on
a widget that is not in the style listener list beforehand, such that at most
one style registration is outstanding when that final `Stop` is called, the
widget (whose identity the calls do not change) is not in the style listener
list afterwards, and a style broadcast delivered then makes no
`StylesChanged` invocation on it and leaves it as it is. -/
theorem stop_ends_style_callbacks (l : Logger) (cs : List LifecycleCall) (s : Styles)
    (hnew : l.self ∉ l.app.Styles.listeners) (hone : outstanding 0 cs ≤ 1) :
    (Logger.run l (cs ++ [LifecycleCall.Stop])).self = l.self ∧
      l.self ∉ (Logger.run l (cs ++ [LifecycleCall.Stop])).app.Styles.listeners ∧
      (Logger.broadcast (Logger.run l (cs ++ [LifecycleCall.Stop])).toWidget s).2 = 0 ∧
      (Logger.broadcast (Logger.run l (cs ++ [LifecycleCall.Stop])).toWidget s).1 =
        (Logger.run l (cs ++ [LifecycleCall.Stop])).toWidget := by
  have hself := run_self l (cs ++ [LifecycleCall.Stop])
  have hcount : (Logger.run l (cs ++ [LifecycleCall.Stop])).app.Styles.listeners.count l.self
      = 0 := by
    rw [run_count, List.count_eq_zero_of_not_mem hnew, outstanding_snoc]
    show outstanding 0 cs - 1 = 0
    omega
  have habs : l.self ∉ (Logger.run l (cs ++ [LifecycleCall.Stop])).app.Styles.listeners :=
    List.count_eq_zero.mp hcount
  have hb : Logger.broadcast (Logger.run l (cs ++ [LifecycleCall.Stop])).toWidget s =
      ((Logger.run l (cs ++ [LifecycleCall.Stop])).toWidget, 0) :=
    broadcast_foldl_absent _ s _ (by rw [hself]; exact habs) _
  refine ⟨hself, habs, ?_, ?_⟩
  · rw [hb]
  · rw [hb]

/-- Witness of C6: a new widget taken through `Init`, `Stop`, `SetSubject`,
`Init`, `Start` and then the final `Stop`. -/
theorem stop_ends_style_callbacks_witness :
    (sampleLogger false false).self ∉ (sampleLogger false false).app.Styles.listeners ∧
      outstanding 0 [LifecycleCall.Init, LifecycleCall.Stop, LifecycleCall.SetSubject "pod",
        LifecycleCall.Init, LifecycleCall.Start] ≤ 1 ∧
      (sampleLogger false false).self ∉
        (Logger.run (sampleLogger false false)
          ([LifecycleCall.Init, LifecycleCall.Stop, LifecycleCall.SetSubject "pod",
            LifecycleCall.Init, LifecycleCall.Start] ++
            [LifecycleCall.Stop])).app.Styles.listeners :=
  ⟨by decide, by decide,
   (stop_ends_style_callbacks (sampleLogger false false)
      [LifecycleCall.Init, LifecycleCall.Stop, LifecycleCall.SetSubject "pod",
        LifecycleCall.Init, LifecycleCall.Start] sampleStyles (by decide) (by decide)).2.1⟩

/-- C9, as stated, fails: a new widget is in neither listener list, and after
`Init` followed by `Stop` it is still in the listener list of its filter
buffer. -/
theorem init_stop_pairing_counterexample :
    (sampleLogger false false).self ∉ (sampleLogger false false).app.Styles.listeners ∧
      (sampleLogger false false).self ∉ (sampleLogger false false).cmdBuff.listeners ∧
      ¬ ((Logger.run (sampleLogger false false)
            [LifecycleCall.Init, LifecycleCall.Stop]).self ∉
          (Logger.run (sampleLogger false false)
            [LifecycleCall.Init, LifecycleCall.Stop]).app.Styles.listeners ∧
        (Logger.run (sampleLogger false false)
            [LifecycleCall.Init, LifecycleCall.Stop]).self ∉
          (Logger.run (sampleLogger false false)
            [LifecycleCall.Init, LifecycleCall.Stop]).cmdBuff.listeners) := by
  refine ⟨by decide, by decide, ?_⟩
  intro h
  exact h.2 (by decide)

/-- C9, amended: for a widget that is not in the style listener list
beforehand, `Init` registers the widget on the style broadcast and on its own
filter buffer; after `Init` followed by `Stop` the style registration is gone
(the widget is not in the style listener list), while `Stop` leaves the
buffer's listener list as `Init` left it, with the widget still in it. -/
theorem init_stop_pairing (l : Logger) (hnew : l.self ∉ l.app.Styles.listeners) :
    l.self ∈ (Logger.run l [LifecycleCall.Init]).app.Styles.listeners ∧
      l.self ∈ (Logger.run l [LifecycleCall.Init]).cmdBuff.listeners ∧
      (Logger.run l [LifecycleCall.Init, LifecycleCall.Stop]).self = l.self ∧
      l.self ∉ (Logger.run l [LifecycleCall.Init, LifecycleCall.Stop]).app.Styles.listeners ∧
      (Logger.run l [LifecycleCall.Init, LifecycleCall.Stop]).cmdBuff.listeners =
        (Logger.run l [LifecycleCall.Init]).cmdBuff.listeners ∧
      l.self ∈ (Logger.run l [LifecycleCall.Init, LifecycleCall.Stop]).cmdBuff.listeners := by
  have hs : (Logger.run l [LifecycleCall.Init]).app.Styles.listeners =
      l.app.Styles.listeners ++ [l.self] := rfl
  have hb : (Logger.run l [LifecycleCall.Init]).cmdBuff.listeners =
      l.cmdBuff.listeners ++ [l.self] := rfl
  have hbs : (Logger.run l [LifecycleCall.Init, LifecycleCall.Stop]).cmdBuff.listeners =
      (Logger.run l [LifecycleCall.Init]).cmdBuff.listeners := rfl
  have hcount : (Logger.run l [LifecycleCall.Init, LifecycleCall.Stop]).app.Styles.listeners.count
      l.self = 0 := by
    rw [run_count, List.count_eq_zero_of_not_mem hnew]
    rfl
  refine ⟨?_, ?_, rfl, List.count_eq_zero.mp hcount, hbs, ?_⟩
  · rw [hs]
    simp
  · rw [hb]
    simp
  · rw [hbs, hb]
    simp

/-- Witness of C9: a new widget, which is in no listener list. -/
theorem init_stop_pairing_witness :
    (sampleLogger false false).self ∉ (sampleLogger false false).app.Styles.listeners ∧
      (sampleLogger false false).self ∈
        (Logger.run (sampleLogger false false) [LifecycleCall.Init]).app.Styles.listeners ∧
      (sampleLogger false false).self ∉
        (Logger.run (sampleLogger false false)
          [LifecycleCall.Init, LifecycleCall.Stop]).app.Styles.listeners ∧
      (sampleLogger false false).self ∈
        (Logger.run (sampleLogger false false)
          [LifecycleCall.Init, LifecycleCall.Stop]).cmdBuff.listeners :=
  ⟨by decide, (init_stop_pairing (sampleLogger false false) (by decide)).1,
   (init_stop_pairing (sampleLogger false false) (by decide)).2.2.2.1,
   (init_stop_pairing (sampleLogger false false) (by decide)).2.2.2.2.2⟩

/-- C10: `StylesChanged` does not consult the snapshot it is passed: for any
two snapshots the resulting widget is the same, and its background, text and
border-focus colours are those of the host's style object `app.Styles`. -/
theorem stylesChanged_ignores_snapshot (l : Widget) (s1 s2 : Styles) :
    Logger.StylesChanged l s1 = Logger.StylesChanged l s2 ∧
      (Logger.StylesChanged l s1).TextView.backgroundColor = l.app.Styles.BgColor ∧
      (Logger.StylesChanged l s1).TextView.textColor = l.app.Styles.FgColor ∧
      (Logger.StylesChanged l s1).TextView.borderFocusColor =
        l.app.Styles.Frame.Border.FocusColor :=
  ⟨rfl, rfl, rfl, rfl⟩

/-! ## Save and Copy -/

/-- C7: `saveCmd`, called as a bound handler, consumes the event and leaves
filter buffer and action registry unchanged; when the write fails with
`err`, the only notification it emits is the error notification carrying
`err`; when the write succeeds with `path`, the only notification it emits
is the info notification "Log <path> saved successfully!", whose text
contains `path`. -/
theorem saveCmd_one_notification (l : Logger) (evt : EventKey) :
    (Logger.invoke Logger.saveCmd evt l).1 = none ∧
    (Logger.invoke Logger.saveCmd evt l).2.cmdBuff = l.cmdBuff ∧
    (Logger.invoke Logger.saveCmd evt l).2.actions = l.actions ∧
    (∀ err, l.sys.saveYAML l.app.CurrentCluster l.title (l.TextView.GetText true)
        = Except.error err →
      ∃ d, (Logger.invoke Logger.saveCmd evt l).2.app.log = l.app.log ++ d ∧
        d.filter Effect.isFlash = [Effect.flashErr err]) ∧
    (∀ path, l.sys.saveYAML l.app.CurrentCluster l.title (l.TextView.GetText true)
        = Except.ok path →
      ∃ d, (Logger.invoke Logger.saveCmd evt l).2.app.log = l.app.log ++ d ∧
        d.filter Effect.isFlash =
          [Effect.flashInfo ("Log " ++ path ++ " saved successfully!")] ∧
        path.data <:+: ("Log " ++ path ++ " saved successfully!").data) := by
  refine ⟨?_, ?_, ?_, ?_, ?_⟩
  · unfold Logger.invoke Logger.saveCmd
    dsimp only
    split <;> rfl
  · unfold Logger.invoke Logger.saveCmd
    dsimp only
    split <;> rfl
  · rfl
  · intro err h
    refine ⟨[Effect.saveYAML l.app.CurrentCluster l.title (l.TextView.GetText true),
      Effect.flashErr err], ?_, rfl⟩
    unfold Logger.invoke Logger.saveCmd
    dsimp only
    rw [h]
    simp [App.FlashErr, App.record]
  · intro path h
    refine ⟨[Effect.saveYAML l.app.CurrentCluster l.title (l.TextView.GetText true),
      Effect.flashInfo ("Log " ++ path ++ " saved successfully!")], ?_, rfl, ?_⟩
    · unfold Logger.invoke Logger.saveCmd
      dsimp only
      rw [h]
      simp [App.FlashInfo, App.record]
    · exact ⟨"Log ".data, " saved successfully!".data, by simp⟩

/-- Witness of C7: Save on an initialised widget, once with a file saver that
fails and once with one that succeeds. -/
theorem saveCmd_one_notification_witness :
    (∃ d, (Logger.invoke Logger.saveCmd sampleEvt
          (Logger.Init (sampleLogger false true)).1).2.app.log =
        (Logger.Init (sampleLogger false true)).1.app.log ++ d ∧
        d.filter Effect.isFlash = [Effect.flashErr { msg := "disk full" }]) ∧
    (∃ d, (Logger.invoke Logger.saveCmd sampleEvt sampleReady).2.app.log =
        sampleReady.app.log ++ d ∧
        d.filter Effect.isFlash =
          [Effect.flashInfo ("Log " ++ "/tmp/minikube/.log" ++ " saved successfully!")] ∧
        "/tmp/minikube/.log".data <:+:
          ("Log " ++ "/tmp/minikube/.log" ++ " saved successfully!").data) :=
  ⟨(saveCmd_one_notification (Logger.Init (sampleLogger false true)).1 sampleEvt).2.2.2.1
      { msg := "disk full" } rfl,
   (saveCmd_one_notification sampleReady sampleEvt).2.2.2.2 "/tmp/minikube/.log" rfl⟩

/-- C8: `cpCmd` consumes the event and first emits the info notification
"Content copied to clipboard...", then attempts the clipboard write, and
then emits an error notification exactly when the write failed: a failed
copy yields the two notifications info, error; a successful one yields the
info notification alone. -/
theorem cpCmd_optimistic (l : Widget) (evt : EventKey) :
    (Logger.cpCmd evt l).1 = none ∧
    (∀ err, l.sys.WriteAll (l.TextView.GetText true) = some err →
      (Logger.cpCmd evt l).2.app.log = l.app.log ++
          [Effect.flashInfo "Content copied to clipboard...",
           Effect.clipboardWrite (l.TextView.GetText true), Effect.flashErr err] ∧
        List.filter Effect.isFlash
          [Effect.flashInfo "Content copied to clipboard...",
           Effect.clipboardWrite (l.TextView.GetText true), Effect.flashErr err] =
          [Effect.flashInfo "Content copied to clipboard...", Effect.flashErr err]) ∧
    (l.sys.WriteAll (l.TextView.GetText true) = none →
      (Logger.cpCmd evt l).2.app.log = l.app.log ++
          [Effect.flashInfo "Content copied to clipboard...",
           Effect.clipboardWrite (l.TextView.GetText true)] ∧
        List.filter Effect.isFlash
          [Effect.flashInfo "Content copied to clipboard...",
           Effect.clipboardWrite (l.TextView.GetText true)] =
          [Effect.flashInfo "Content copied to clipboard..."]) := by
  refine ⟨?_, ?_, ?_⟩
  · unfold Logger.cpCmd
    dsimp only
    split <;> rfl
  · intro err h
    refine ⟨?_, rfl⟩
    unfold Logger.cpCmd
    dsimp only
    rw [h]
    simp [App.FlashErr, App.FlashInfo, App.record]
  · intro h
    refine ⟨?_, rfl⟩
    unfold Logger.cpCmd
    dsimp only
    rw [h]
    simp [App.FlashInfo, App.record]

/-- Witness of C8: Copy on an initialised widget, once with a clipboard that
fails and once with one that succeeds. -/
theorem cpCmd_optimistic_witness :
    (Logger.cpCmd sampleEvt (Logger.Init (sampleLogger false true)).1.toWidget).2.app.log =
        [Effect.setModel 70, Effect.flashInfo "Content copied to clipboard...",
         Effect.clipboardWrite "boom", Effect.flashErr { msg := "no clipboard" }] ∧
      (Logger.cpCmd sampleEvt sampleReady.toWidget).2.app.log =
        [Effect.setModel 70, Effect.flashInfo "Content copied to clipboard...",
         Effect.clipboardWrite "boom"] :=
  ⟨((cpCmd_optimistic (Logger.Init (sampleLogger false true)).1.toWidget sampleEvt).2.1
      { msg := "no clipboard" } rfl).1,
   ((cpCmd_optimistic sampleReady.toWidget sampleEvt).2.2 rfl).1⟩

end K9s
